import Mathlib

/-!
Verification of the SOC bot alert-ingestion core (admin registry, message
renderer, fan-out dispatcher, ingest endpoint) against its specification.

The embedding follows the Python sources `src/bot/storage.py`,
`src/bot/helpers/formatter.py` and `src/bot/api.py` (with the near-identical
monolith variants `src/soc_bot.py` and `src/soc_bot_temp.py` consulted where
the claims cite them).  Python values decoded from JSON are modelled by the
`Json` inductive below; Python `None` is `Json.null`; fallible Python code
(code that can raise) returns `Except`.
-/

namespace SocBot

/-- A value as produced by Python's `json.load` / consumed by `json.dump`:
null, booleans, numbers (the repository only ever stores integers — chat ids,
severities — so the numeric case is `Int`), strings, arrays, and objects as
ordered key/value lists. -/
inductive Json where
  | null : Json
  | bool : Bool → Json
  | num : Int → Json
  | str : String → Json
  | arr : List Json → Json
  | obj : List (String × Json) → Json
deriving Repr

/-- Python truthiness (`bool(x)`) of a JSON-decoded value: `None`, `False`,
`0`, `""`, `[]` and `{}` are falsy, everything else truthy. -/
def jsonTruthy : Json → Bool
  | .null => false
  | .bool b => b
  | .num n => n != 0
  | .str s => s != ""
  | .arr xs => !xs.isEmpty
  | .obj kvs => !kvs.isEmpty

/-- Dictionary lookup, `d[k]` / `d.get(k)` on the ordered pairs of an object. -/
def lookupKey (k : String) : List (String × Json) → Option Json
  | [] => Option.none
  | (k', v) :: rest => if k' = k then some v else lookupKey k rest

/-- Whether a JSON value is an array: Python's `isinstance(x, list)`. -/
def Json.isArr : Json → Bool
  | .arr _ => true
  | _ => false

/-- Whether a JSON value is an object: Python's `isinstance(x, dict)`. -/
def Json.isObj : Json → Bool
  | .obj _ => true
  | _ => false

/-- Whether a JSON-decoded Python value is `None`: Python's `x is None`. -/
def Json.isNull : Json → Bool
  | .null => true
  | _ => false

-- ==================== Registry store (src/bot/storage.py) ====================

/-- One record of the admin registry, as `add_admin` creates it:
`{"chat_id": ..., "username": ..., "receive": ...}`. -/
structure Admin where
  chat_id : Int
  username : Option String
  receive : Bool
deriving Repr, DecidableEq

/-- The observable state of the registry file `admins.json`.  `missing` — the
file does not exist; `malformed` — its contents fail JSON parsing
(`json.load` raises); `parsed doc` — parsing succeeded with document `doc`.
The atomic temp-file-then-rename protocol of `write_admins` is modelled by its
end state (the fully replaced document). -/
inductive FileState where
  | missing : FileState
  | malformed : FileState
  | parsed : Json → FileState
deriving Repr

/-- `read_admins` of `src/bot/storage.py`: a missing file yields `[]`; inside
the `try`, `json.load` failure is caught (yielding `[]`), `data.get` on a
non-dict raises `AttributeError` which the same `except` catches (yielding
`[]`), and on a dict the value of key `"admins"` is returned as-is, `[]` when
the key is absent.  The function is total: every failure is caught. -/
def read_admins (fs : FileState) : Json :=
  match fs with
  | .missing => .arr []
  | .malformed => .arr []
  | .parsed (.obj kvs) => (lookupKey "admins" kvs).getD (.arr [])
  | .parsed _ => .arr []

/-- `write_admins`: dumps `{"admins": admins}` to a temp file and atomically
renames it over `admins.json`; modelled by the resulting file state. -/
def write_admins (admins : List Json) : FileState :=
  .parsed (.obj [("admins", .arr admins)])

/-- Encoding of an `Admin` record as the dict `add_admin` appends. -/
def encodeAdmin (a : Admin) : Json :=
  .obj [("chat_id", .num a.chat_id),
        ("username", (a.username.map Json.str).getD Json.null),
        ("receive", .bool a.receive)]

/-- `add_admin` of `src/bot/storage.py`, at the typed level of the record list
it reads and writes: if any existing record has this `chat_id`, return `False`
without writing; otherwise append `{"chat_id": ..., "username": ...,
"receive": False}`, write, and return `True`.  The pair is (registry after the
call, returned value). -/
def add_admin (chat_id : Int) (username : Option String) (admins : List Admin) :
    List Admin × Bool :=
  if admins.any (fun a => a.chat_id == chat_id) then (admins, false)
  else (admins ++ [{ chat_id := chat_id, username := username, receive := false }], true)

/-- `remove_admin` of `src/bot/storage.py`: filter out the matching records;
if the length is unchanged return `False`; otherwise
`return write_admins(new_admins)` — and `write_admins` returns Python `None`,
so the delete path returns `None`, modelled as `Option.none` in the
`Option Bool` of possible return values (`some b` models returning bool `b`).
The pair is (registry after the call, returned value). -/
def remove_admin (chat_id : Int) (admins : List Admin) :
    List Admin × Option Bool :=
  let new_admins := admins.filter (fun a => a.chat_id != chat_id)
  if new_admins.length = admins.length then (admins, some false)
  else (new_admins, Option.none)

/-- `list_admin_chat_ids`: the `chat_id` of every record, in order. -/
def list_admin_chat_ids (admins : List Admin) : List Int :=
  admins.map (fun a => a.chat_id)

/-- `get_receiving_admins`: chat ids of the records whose `receive` flag is
set (`a.get("receive", False)` on records that `add_admin` created always
finds the key). -/
def get_receiving_admins (admins : List Admin) : List Int :=
  (admins.filter (fun a => a.receive)).map (fun a => a.chat_id)

/-- A registry mutation issued through the command surface. -/
inductive RegOp where
  | add : Int → Option String → RegOp
  | remove : Int → RegOp
deriving Repr, DecidableEq

/-- The registry state after one mutating call. -/
def applyOp (admins : List Admin) : RegOp → List Admin
  | .add c u => (add_admin c u admins).1
  | .remove c => (remove_admin c admins).1

/-- The registry built from the empty state by a sequence of mutations. -/
def applyOps (ops : List RegOp) : List Admin :=
  ops.foldl applyOp []

/-- How many records of the registry carry a given chat id. -/
def countId (c : Int) (admins : List Admin) : Nat :=
  (admins.filter (fun a => a.chat_id == c)).length

-- ============== Message renderer (src/bot/helpers/formatter.py) ==============

/-- The reserved MarkdownV2 characters, in the exact order the Python loop
`for ch in r"\_*[]()~`>#+-=|{}.!"` visits them (backslash first). -/
def reservedChars : List Char :=
  ['\\', '_', '*', '[', ']', '(', ')', '~', '`', '>', '#', '+', '-', '=', '|',
   '\x7b', '\x7d', '.', '!']

/-- One pass of the loop body `text = text.replace(ch, f"\\{ch}")`: with a
single-character pattern, `str.replace` rewrites each occurrence of `ch` to a
backslash followed by `ch` and leaves every other character alone.  Strings
are modelled as their character lists. -/
def replaceChar (ch : Char) : List Char → List Char
  | [] => []
  | c :: rest => (if c = ch then ['\\', ch] else [c]) ++ replaceChar ch rest

/-- The whole loop of `escape_md_fragment`, over the character list. -/
def escape_list (text : List Char) : List Char :=
  reservedChars.foldl (fun t ch => replaceChar ch t) text

/-- `escape_md_fragment` of `src/bot/helpers/formatter.py`. -/
def escape_md_fragment (text : String) : String :=
  String.mk (escape_list text.data)

/-- The fixed 11-entry severity icon table of `format_alert`. -/
def icons : List String :=
  ["🟢", "🟢", "🟢", "🟡", "🟡", "🟡", "🟠", "🟠", "🔴", "🔴", "🔥"]

/-- Python's `a or b`: `a` when truthy, else `b`. -/
def pyOr (a b : Json) : Json :=
  if jsonTruthy a then a else b

/-- Decimal digit parse of a character run: `some` of the value when every
character is a digit and the run is non-empty. -/
def parseDigits : List Char → Nat → Option Nat
  | [], acc => some acc
  | c :: rest, acc =>
      if c.isDigit then parseDigits rest (acc * 10 + (c.toNat - 48))
      else Option.none

/-- The integer literals Python's `int(str)` accepts, modelled as an optional
leading sign followed by at least one decimal digit. -/
def parseIntChars : List Char → Option Int
  | [] => Option.none
  | '-' :: rest =>
      if rest.isEmpty then Option.none
      else (parseDigits rest 0).map (fun n => -(n : Int))
  | '+' :: rest =>
      if rest.isEmpty then Option.none
      else (parseDigits rest 0).map (fun n => (n : Int))
  | cs => (parseDigits cs 0).map (fun n => (n : Int))

/-- Python's `int(x)` on a JSON-decoded value: exact on ints, `True`/`False`
map to 1/0, a string is parsed as a decimal integer literal (a non-numeric
string raises `ValueError`), and `None`, lists and dicts raise `TypeError`. -/
def pyInt : Json → Except String Int
  | .num n => .ok n
  | .bool b => .ok (if b then 1 else 0)
  | .str s =>
      match parseIntChars s.data with
      | some n => .ok n
      | Option.none => .error ("ValueError: invalid literal for int() with base 10: " ++ s)
  | .null => .error "TypeError: int() argument must not be NoneType"
  | .arr _ => .error "TypeError: int() argument must not be list"
  | .obj _ => .error "TypeError: int() argument must not be dict"

/-- Python's `str(x)` on a JSON-decoded value.  The container cases use a
simplified rendering (the claims only ever apply `str` to strings and
numbers). -/
def pyStr : Json → String
  | .str s => s
  | .num n => toString n
  | .bool b => if b then "True" else "False"
  | .null => "None"
  | .arr _ => "[...]"
  | .obj _ => "\x7b...\x7d"

/-- Python iteration `for x in tags` on a JSON-decoded value: lists yield
their elements, strings their characters, dicts their keys; numbers and
booleans raise `TypeError`. -/
def pyIter : Json → Except String (List Json)
  | .arr xs => .ok xs
  | .str s => .ok (s.data.map (fun c => .str (String.mk [c])))
  | .obj kvs => .ok (kvs.map (fun kv => Json.str kv.1))
  | .null => .error "TypeError: NoneType object is not iterable"
  | .num _ => .error "TypeError: int object is not iterable"
  | .bool _ => .error "TypeError: bool object is not iterable"

mutual
/-- `json.dumps(details, indent=2, ensure_ascii=False)`, simplified to a
single-line rendering: the claims never inspect the serialized text, only
that serialization of a JSON-decoded value is total (which it is in Python,
since the argument came from `json.load`).  String escaping and the `indent=2`
whitespace are elided. -/
def dumps : Json → String
  | .null => "null"
  | .bool b => if b then "true" else "false"
  | .num n => toString n
  | .str s => "\"" ++ s ++ "\""
  | .arr xs => "[" ++ dumpsList xs ++ "]"
  | .obj kvs => "\x7b" ++ dumpsObj kvs ++ "\x7d"

/-- Comma-joined serialization of array elements. -/
def dumpsList : List Json → String
  | [] => ""
  | [x] => dumps x
  | x :: rest => dumps x ++ ", " ++ dumpsList rest

/-- Comma-joined serialization of object members. -/
def dumpsObj : List (String × Json) → String
  | [] => ""
  | [(k, v)] => "\"" ++ k ++ "\": " ++ dumps v
  | (k, v) :: rest => "\"" ++ k ++ "\": " ++ dumps v ++ ", " ++ dumpsObj rest
end

/-- `format_alert` of `src/bot/helpers/formatter.py` (identically
`src/soc_bot.py` lines 92–106).  All four parameters are JSON-decoded Python
values (`Json.null` models `None`).  Faithfully modelled behaviour:
`sev = max(0, min(10, int(severity or 5)))` — so a falsy severity (`None`,
`0`, `""`) is replaced by 5 before conversion, and `int` on a non-numeric
value makes the whole call raise, hence the `Except` result;
`t = f"{icons[sev]} {escape_md_fragment(f"*{str(summary)}*")}"` — the bold
markers are part of the text handed to the escaper;
`if tags:` — a falsy `tags` (None or empty) adds no tag line, a truthy one is
iterated, each element rendered as `escape_md_fragment(f"#{str(x)}")` and
space-joined; `if details is not None:` appends the serialized details inside
a code fence. -/
def format_alert (summary severity details tags : Json) : Except String String :=
  match pyInt (pyOr severity (.num 5)) with
  | .error e => .error e
  | .ok n =>
    let sev : Int := max 0 (min 10 n)
    let icon := icons.getD sev.toNat ""
    let t0 := icon ++ " " ++ escape_md_fragment ("*" ++ pyStr summary ++ "*")
    let withTags : Except String String :=
      if jsonTruthy tags then
        match pyIter tags with
        | .error e => .error e
        | .ok xs =>
          let safe_tags :=
            String.intercalate " " (xs.map (fun x => escape_md_fragment ("#" ++ pyStr x)))
          .ok (t0 ++ " \n" ++ safe_tags)
      else .ok t0
    match withTags with
    | .error e => .error e
    | .ok t1 =>
      if details.isNull then .ok t1
      else .ok (t1 ++ "\n*Details:*\n```json\n" ++ dumps details ++ "\n```")

-- ============== Fan-out dispatcher and ingest endpoint (src/bot/api.py) ==============

/-- One delivery outcome, as the dicts `{"chat_id": ..., "status": "sent"}` /
`{"chat_id": ..., "status": "error", "error": str(e)}` that the ingest loop
appends to `results`. -/
structure Outcome where
  chat_id : Int
  status : String
  error : Option String
deriving Repr, DecidableEq

/-- One iteration of the delivery loop: `await bot.send_message(chat_id=cid,
text=text, ...)` inside `try`, appending a `sent` outcome on success and an
`error` outcome carrying `str(e)` when the transport raises.  The transport's
behaviour is the parameter `send` (the boundary to the chat service). -/
def sendOutcome (send : Int → String → Except String Unit) (text : String)
    (cid : Int) : Outcome :=
  match send cid text with
  | .ok _ => { chat_id := cid, status := "sent", error := Option.none }
  | .error e => { chat_id := cid, status := "error", error := some e }

/-- The delivery loop with its accumulator: `results = []` then
`for cid in receiving: ... results.append(...)`. -/
def dispatchGo (send : Int → String → Except String Unit) (text : String)
    (results : List Outcome) : List Int → List Outcome
  | [] => results
  | cid :: rest => dispatchGo send text (results ++ [sendOutcome send text cid]) rest

/-- The fan-out dispatcher of `src/bot/api.py` lines 36–44: one delivery
attempt per recipient, every per-recipient exception caught and converted to
an `error` outcome, outcomes collected in input order. -/
def dispatch (send : Int → String → Except String Unit) (text : String)
    (targets : List Int) : List Outcome :=
  dispatchGo send text [] targets

/-- Python truthiness of the optional configured secret `API_KEY`
(`None` and `""` are falsy). -/
def optStrTruthy : Option String → Bool
  | Option.none => false
  | some s => s != ""

/-- The response body of a successful `/v1/ingest` call. -/
structure IngestResponse where
  accepted : Bool
  forwarded : Bool
  reason : Option String
  results : Option (List Outcome)
deriving Repr, DecidableEq

/-- `payload.get(k, d)`: the value at `k`, or the default when absent. -/
def payloadGet (kvs : List (String × Json)) (k : String) (d : Json) : Json :=
  (lookupKey k kvs).getD d

/-- The ingest endpoint of `src/bot/api.py` (`POST /v1/ingest`).  Inputs:
the configured secret `API_KEY`, the request's `x_api_key` header, the result
of `await request.json()` (`Except Unit Json`: `.error` models an unparseable
body), the current admin registry (read through `get_receiving_admins`), and
the transport behaviour `send`.  The result is the HTTP outcome: `.error
(code, detail)` models a raised `HTTPException` or an uncaught exception
(propagated as a 500 by the framework — `payload.get` on a non-dict body and
a `format_alert` failure are the two uncaught sources on this path). -/
def ingest (API_KEY x_api_key : Option String) (body : Except Unit Json)
    (admins : List Admin) (send : Int → String → Except String Unit) :
    Except (Nat × String) IngestResponse :=
  if optStrTruthy API_KEY && x_api_key != API_KEY then
    .error (403, "Forbidden: invalid API key")
  else
    match body with
    | .error _ => .error (400, "Invalid JSON")
    | .ok (.obj kvs) =>
      let summary := payloadGet kvs "summary" (.str "Alert")
      let severity := payloadGet kvs "severity" (.num 5)
      let details := payloadGet kvs "details" .null
      let tags := payloadGet kvs "tags" .null
      let receiving := get_receiving_admins admins
      if receiving.isEmpty then
        .ok { accepted := true, forwarded := false,
              reason := some "no_admins_in_receive_mode", results := Option.none }
      else
        match format_alert summary severity details
            (if tags.isArr then tags else .null) with
        | .error e => .error (500, e)
        | .ok text =>
          .ok { accepted := true, forwarded := true, reason := Option.none,
                results := some (dispatch send text receiving) }
    | .ok _ => .error (500, "AttributeError: object has no attribute get")

/-- A transport stub for the isolation scenario: recipient 1 always fails
delivery, every other recipient always succeeds. -/
def sendFail1 : Int → String → Except String Unit :=
  fun cid _ => if cid = 1 then .error "unreachable" else .ok ()

/-- A transport stub that rejects every delivery with the rendered text as the
diagnostic, making the delivered text observable in the outcome list. -/
def sendEcho : Int → String → Except String Unit :=
  fun _ text => .error text

-- ==================== Theorems ====================

theorem countId_append (c : Int) (l m : List Admin) :
    countId c (l ++ m) = countId c l + countId c m := by
  simp [countId, List.filter_append]

theorem countId_le_of_sublist (c : Int) (l m : List Admin)
    (h : List.Sublist l m) : countId c l ≤ countId c m :=
  (h.filter _).length_le

theorem countId_applyOp (l : List Admin) (op : RegOp)
    (h : ∀ i, countId i l ≤ 1) (i : Int) : countId i (applyOp l op) ≤ 1 := by
  cases op with
  | add c u =>
    simp only [applyOp, add_admin]
    by_cases hc : l.any (fun a => a.chat_id == c) = true
    · simp only [hc, if_true]
      exact h i
    · rw [Bool.not_eq_true] at hc
      simp only [hc, Bool.false_eq_true, if_false]
      rw [countId_append]
      by_cases hic : i = c
      · subst hic
        have h0 : countId i l = 0 := by
          rw [countId, List.length_eq_zero, List.filter_eq_nil_iff]
          intro a ha hai
          rw [← Bool.not_eq_true] at hc
          exact hc (List.any_eq_true.mpr ⟨a, ha, hai⟩)
        rw [h0]
        have h1 : countId i [{ chat_id := i, username := u, receive := false }] ≤ 1 :=
          le_trans (List.length_filter_le _ _) (by simp)
        omega
      · have h1 : countId i [{ chat_id := c, username := u, receive := false }] = 0 := by
          simp [countId]
          intro hci
          exact hic hci.symm
        rw [h1]
        have := h i
        omega
  | remove c =>
    simp only [applyOp, remove_admin]
    by_cases hl : (l.filter (fun a => a.chat_id != c)).length = l.length
    · simp only [hl, if_true]
      exact h i
    · simp only [hl, if_false]
      exact le_trans (countId_le_of_sublist i _ l (List.filter_sublist l)) (h i)

theorem applyOps_inv : ∀ (ops : List RegOp) (l : List Admin),
    (∀ i, countId i l ≤ 1) → ∀ i, countId i (ops.foldl applyOp l) ≤ 1
  | [], _, h => h
  | op :: ops, l, h =>
      applyOps_inv ops (applyOp l op) (fun i => countId_applyOp l op h i)

/-- Claim C1 (code bug): on the concrete scenario of the claim — `add(100,
"alice")` on an empty registry followed by `remove(100)` — the removal does
delete the record (the registry and `list()` are empty afterwards), but the
call returns Python `None` (the return value of `write_admins`, here
`Option.none`), not `True`; only the not-present path returns a real `False`.
So `remove` on a present id does not return true as the claim states. -/
theorem remove_admin_present_returns_none :
    add_admin 100 (some "alice") [] =
        ([{ chat_id := 100, username := some "alice", receive := false }], true)
    ∧ remove_admin 100 [{ chat_id := 100, username := some "alice", receive := false }] =
        ([], Option.none)
    ∧ (Option.none : Option Bool) ≠ some true
    ∧ list_admin_chat_ids
        (remove_admin 100
          [{ chat_id := 100, username := some "alice", receive := false }]).1 = []
    ∧ remove_admin 100 [] = ([], some false) :=
  ⟨rfl, rfl, by simp, rfl, rfl⟩

/-- Claim C2 (code bug): `format_alert` hands the bold markers and the tag
`#` prefix to the escaper together with the user text
(`escape_md_fragment(f"*{summary}*")`, `escape_md_fragment(f"#{x}")`), so the
template punctuation around the summary and tags comes out escaped
(`\*hi\*`, `\#T`) instead of remaining live markup as the claim and the
code's own comment ("Escape only user-provided fields") require. -/
theorem format_alert_escapes_template_markers :
    format_alert (.str "hi") (.num 1) .null .null = .ok "🟢 \\*hi\\*"
    ∧ format_alert (.str "hi") (.num 1) .null (.arr [.str "T"]) =
        .ok "🟢 \\*hi\\* \n\\#T"
    ∧ escape_md_fragment "*hi*" = "\\*hi\\*" :=
  ⟨rfl, rfl, rfl⟩

/-- Claim C3 (code bug): `int(severity or 5)` treats the in-range severity 0
as missing, because `0` is falsy in Python: `format_alert` at severity 0
renders the index-5 icon 🟡 — the same as severity 5 — not the index-0 icon
🟢 demanded by the claim's `max(0, min(10, severity))` indexing. -/
theorem format_alert_severity_zero_uses_default_icon :
    format_alert (.str "x") (.num 0) .null .null = .ok "🟡 \\*x\\*"
    ∧ format_alert (.str "x") (.num 5) .null .null = .ok "🟡 \\*x\\*"
    ∧ icons.getD 0 "" = "🟢"
    ∧ ("🟡" : String) ≠ "🟢" :=
  ⟨rfl, rfl, rfl, by decide⟩

/-- Claim C4 (code bug): the renderer is not total — a non-numeric severity
string makes `int(severity or 5)` raise `ValueError`, which propagates out of
`format_alert` instead of degrading to the documented default of 5. -/
theorem format_alert_raises_on_nonnumeric_severity :
    format_alert (.str "x") (.str "high") .null .null =
      .error "ValueError: invalid literal for int() with base 10: high" :=
  rfl

/-- Claim C9 (confirmed): writing a registry snapshot and re-reading it with
no intervening mutation yields the identical ordered collection — the write
stores `{"admins": admins}` and the read returns exactly the value under
`"admins"`. -/
theorem write_read_roundtrip :
    ∀ admins : List Json, read_admins (write_admins admins) = .arr admins :=
  fun _ => rfl

theorem dispatchGo_eq (send : Int → String → Except String Unit) (text : String) :
    ∀ (targets : List Int) (acc : List Outcome),
      dispatchGo send text acc targets = acc ++ targets.map (sendOutcome send text)
  | [], acc => by simp [dispatchGo]
  | cid :: rest, acc => by
      rw [dispatchGo, dispatchGo_eq send text rest (acc ++ [sendOutcome send text cid])]
      simp

/-- Claim C5 (confirmed): the fan-out loop yields exactly one outcome per
input id (it is pointwise: the list of `sendOutcome`s of the ids, so one
recipient's delivery failure cannot affect any other outcome, and the total
function never raises past its boundary); every outcome is `sent` with no
diagnostic or `error` with one; and on the claim's scenario of one
always-failing and two always-succeeding recipients it returns three
outcomes, two `sent` and one `error`. -/
theorem dispatch_isolates_failures :
    ∀ (send : Int → String → Except String Unit) (text : String) (targets : List Int),
      dispatch send text targets = targets.map (sendOutcome send text)
      ∧ (dispatch send text targets).length = targets.length
      ∧ (dispatch send text targets).Forall
          (fun o => (o.status = "sent" ∧ o.error = Option.none)
            ∨ ∃ e, o.status = "error" ∧ o.error = some e)
      ∧ dispatch sendFail1 "m" [1, 2, 3] =
          [{ chat_id := 1, status := "error", error := some "unreachable" },
           { chat_id := 2, status := "sent", error := Option.none },
           { chat_id := 3, status := "sent", error := Option.none }]
      ∧ ((dispatch sendFail1 "m" [1, 2, 3]).filter
            (fun o => o.status == "sent")).length = 2
      ∧ ((dispatch sendFail1 "m" [1, 2, 3]).filter
            (fun o => o.status == "error")).length = 1 := by
  intro send text targets
  have hmap : dispatch send text targets = targets.map (sendOutcome send text) := by
    rw [dispatch, dispatchGo_eq send text targets []]
    simp
  refine ⟨hmap, by rw [hmap]; simp, ?_, by rfl, by rfl, by rfl⟩
  rw [List.forall_iff_forall_mem]
  intro o ho
  rw [hmap] at ho
  obtain ⟨cid, _, rfl⟩ := List.mem_map.mp ho
  cases h : send cid text with
  | ok u => exact Or.inl (by simp [sendOutcome, h])
  | error e => exact Or.inr ⟨e, by simp [sendOutcome, h]⟩

/-- Claim C6 (confirmed): an authenticated, well-formed ingest call that
finds no eligible recipients short-circuits to a success response with
`accepted = true`, `forwarded = false` and the non-empty reason
`"no_admins_in_receive_mode"`, and its result does not depend on the
transport at all — no delivery is attempted. -/
theorem ingest_empty_eligible_set
    (API_KEY x_api_key : Option String) (kvs : List (String × Json))
    (admins : List Admin) (send send' : Int → String → Except String Unit)
    (hauth : (optStrTruthy API_KEY && x_api_key != API_KEY) = false)
    (hrecv : get_receiving_admins admins = []) :
    ingest API_KEY x_api_key (.ok (.obj kvs)) admins send =
      .ok { accepted := true, forwarded := false,
            reason := some "no_admins_in_receive_mode", results := Option.none }
    ∧ "no_admins_in_receive_mode" ≠ ""
    ∧ ingest API_KEY x_api_key (.ok (.obj kvs)) admins send =
        ingest API_KEY x_api_key (.ok (.obj kvs)) admins send' := by
  refine ⟨?_, by decide, ?_⟩ <;> simp [ingest, hauth, hrecv]

theorem ingest_empty_eligible_set_witness :
    ingest Option.none Option.none (.ok (.obj [])) [] (fun _ _ => .ok ()) =
      .ok { accepted := true, forwarded := false,
            reason := some "no_admins_in_receive_mode", results := Option.none } :=
  (ingest_empty_eligible_set Option.none Option.none [] []
    (fun _ _ => .ok ()) (fun _ _ => .error "boom") rfl rfl).1

/-- Claim C7 (confirmed): registering an id not yet present appends exactly
one new record (with the `receive` flag down) and returns true; registering a
present id returns false and leaves the registry exactly as it was; and over
every sequence of add/remove mutations starting from the empty registry, at
most one record per chat id ever exists. -/
theorem add_admin_idempotent (admins : List Admin) (c : Int) (u : Option String) :
    ((∀ a ∈ admins, a.chat_id ≠ c) →
      add_admin c u admins =
        (admins ++ [{ chat_id := c, username := u, receive := false }], true))
    ∧ ((∃ a ∈ admins, a.chat_id = c) → add_admin c u admins = (admins, false))
    ∧ (∀ ops : List RegOp, ∀ i : Int, countId i (applyOps ops) ≤ 1) := by
  refine ⟨?_, ?_, ?_⟩
  · intro hno
    have hany : admins.any (fun a => a.chat_id == c) = false := by
      rw [← Bool.not_eq_true, List.any_eq_true]
      rintro ⟨a, ha, hac⟩
      exact hno a ha (by simpa using hac)
    simp [add_admin, hany]
  · rintro ⟨a, ha, hac⟩
    have hany : admins.any (fun a => a.chat_id == c) = true :=
      List.any_eq_true.mpr ⟨a, ha, by simpa using hac⟩
    simp [add_admin, hany]
  · intro ops i
    exact applyOps_inv ops [] (fun j => by simp [countId]) i

theorem add_admin_idempotent_witness :
    add_admin 100 (some "alice") [] =
        ([{ chat_id := 100, username := some "alice", receive := false }], true)
    ∧ add_admin 100 (some "alice")
          [{ chat_id := 100, username := some "alice", receive := false }] =
        ([{ chat_id := 100, username := some "alice", receive := false }], false) :=
  ⟨(add_admin_idempotent [] 100 (some "alice")).1 (by simp),
   (add_admin_idempotent
      [{ chat_id := 100, username := some "alice", receive := false }]
      100 (some "alice")).2.1
     ⟨{ chat_id := 100, username := some "alice", receive := false }, by simp, rfl⟩⟩

/-- Claim C8 counterexample: on the registry document `{"admins": 42}` —
valid JSON, but lacking the expected structure — `read_admins` returns the
number 42 as-is, not the empty collection, so a caller does not receive a
usable list. -/
theorem read_admins_nonlist_admins_value :
    read_admins (.parsed (.obj [("admins", .num 42)])) = .num 42
    ∧ Json.isArr (.num 42) = false
    ∧ Json.num 42 ≠ Json.arr [] :=
  ⟨rfl, rfl, fun h => Json.noConfusion h⟩

/-- Claim C8 as amended: `read_admins` never raises, and it returns the empty
collection for a missing file, for unparseable contents (`json.load` fails),
for a parsed document that is not a dict, and for a dict without the
`"admins"` key; but when the `"admins"` key is present its value is returned
unchecked — a non-list value under that key is passed through to callers
instead of being replaced by the empty collection. -/
theorem read_admins_total_amended :
    read_admins FileState.missing = .arr []
    ∧ read_admins FileState.malformed = .arr []
    ∧ (∀ j : Json, j.isObj = false → read_admins (.parsed j) = .arr [])
    ∧ (∀ kvs, lookupKey "admins" kvs = Option.none →
        read_admins (.parsed (.obj kvs)) = .arr [])
    ∧ (∀ kvs v, lookupKey "admins" kvs = some v →
        read_admins (.parsed (.obj kvs)) = v) := by
  refine ⟨rfl, rfl, ?_, ?_, ?_⟩
  · intro j hj
    cases j with
    | obj kvs => exact absurd hj (by simp [Json.isObj])
    | null => rfl
    | bool b => rfl
    | num n => rfl
    | str s => rfl
    | arr xs => rfl
  · intro kvs hk
    simp [read_admins, hk]
  · intro kvs v hk
    simp [read_admins, hk]

theorem read_admins_total_amended_witness :
    read_admins (.parsed (.num 7)) = .arr []
    ∧ read_admins (.parsed (.obj [("other", .num 1)])) = .arr []
    ∧ read_admins (.parsed (.obj [("admins", .arr [.num 5])])) = .arr [.num 5] :=
  ⟨read_admins_total_amended.2.2.1 (.num 7) rfl,
   read_admins_total_amended.2.2.2.1 [("other", .num 1)] rfl,
   read_admins_total_amended.2.2.2.2 [("admins", .arr [.num 5])] (.arr [.num 5]) rfl⟩

/-- Claim C10 (confirmed): when the payload's `tags` field is present but is
not a list — a string, or a number — the guard `tags if isinstance(tags,
list) else None` makes ingest behave exactly as if `tags` were absent: the
call succeeds and the delivered text (observed here through a transport that
echoes it into the error diagnostic) carries no tag line. -/
theorem ingest_nonlist_tags_treated_absent :
    ingest Option.none Option.none
        (.ok (.obj [("summary", .str "S"), ("tags", .str "urgent")]))
        [{ chat_id := 1, username := Option.none, receive := true }] sendEcho
      = ingest Option.none Option.none (.ok (.obj [("summary", .str "S")]))
        [{ chat_id := 1, username := Option.none, receive := true }] sendEcho
    ∧ ingest Option.none Option.none
        (.ok (.obj [("summary", .str "S"), ("tags", .num 7)]))
        [{ chat_id := 1, username := Option.none, receive := true }] sendEcho
      = ingest Option.none Option.none (.ok (.obj [("summary", .str "S")]))
        [{ chat_id := 1, username := Option.none, receive := true }] sendEcho
    ∧ ingest Option.none Option.none (.ok (.obj [("summary", .str "S")]))
        [{ chat_id := 1, username := Option.none, receive := true }] sendEcho
      = .ok { accepted := true, forwarded := true, reason := Option.none,
              results := some [{ chat_id := 1, status := "error",
                                 error := some "🟡 \\*S\\*" }] } :=
  ⟨rfl, rfl, rfl⟩

end SocBot
